import Mathlib

/-!
Shallow embedding of the brawllib_rs decoders (src/wiird.rs and src/script.rs).

Conventions of the embedding:
* Byte slices are `List Nat` (each element a byte value).
* A Rust panic (slice index out of bounds, `unwrap` of a failed
  big-endian read) is modelled as `none` / a `panic` result constructor.
* Machine integers are `Nat`/`Int` with explicit reduction:
  `u32` casts are `% 2^32`, `usize` casts of signed values sign-extend
  modulo `2^64` (Rust release-mode wrapping arithmetic).
* `f32` is not modelled: the one `f32` field (`Argument::Scalar`,
  `data as f32 / 60000.0`) stores the raw `i32` numerator instead.
-/

/-- Big-endian readers: one byte of the slice, `none` when out of bounds
(a Rust slice index panic). -/
def byteAt (data : List Nat) (i : Nat) : Option Nat := data[i]?

/-- Big-endian u16 read at offset `i` (byteorder `read_u16::<BigEndian>`);
`none` models the `unwrap` panic when fewer than 2 bytes remain. -/
def readU16 (data : List Nat) (i : Nat) : Option Nat :=
  match byteAt data i, byteAt data (i+1) with
  | some a, some b => some (a * 256 + b)
  | _, _ => none

/-- Big-endian u32 read at offset `i`; `none` models the `unwrap` panic. -/
def readU32 (data : List Nat) (i : Nat) : Option Nat :=
  match byteAt data i, byteAt data (i+1), byteAt data (i+2), byteAt data (i+3) with
  | some a, some b, some c, some d => some (((a * 256 + b) * 256 + c) * 256 + d)
  | _, _, _, _ => none

/-- Two's-complement reinterpretation of a u16 as an i16. -/
def i16ofU16 (n : Nat) : Int := if n < 0x8000 then (n : Int) else (n : Int) - 0x10000

/-- Two's-complement reinterpretation of a u32 as an i32. -/
def i32ofU32 (n : Nat) : Int := if n < 0x80000000 then (n : Int) else (n : Int) - 0x100000000

/-- Big-endian i16 read (byteorder `read_i16::<BigEndian>`). -/
def readI16 (data : List Nat) (i : Nat) : Option Int := (readU16 data i).map i16ofU16

/-- Big-endian i32 read (byteorder `read_i32::<BigEndian>`). -/
def readI32 (data : List Nat) (i : Nat) : Option Int := (readU32 data i).map i32ofU32

/-- Rust `v as u32` on a signed value: low 32 bits, two's complement. -/
def u32ofInt (v : Int) : Nat := (v.emod (2^32)).toNat

/-- Rust `v as usize` on a signed value (64-bit target): sign extension,
i.e. the value modulo `2^64`. -/
def usizeOfInt (v : Int) : Nat := (v.emod (2^64)).toNat

/-- Rust arithmetic shift right on a signed value (`i32 >> k`). -/
def i32shr (v : Int) (k : Nat) : Int := Int.shiftRight v k

/-- Rust `i32 & 0xFF`: the low byte, as a non-negative value. -/
def i32land255 (v : Int) : Int := v.emod 256

/-! ## PSA script data model (src/script.rs) -/

/-- VariableDataType (script.rs as in the source). -/
inductive VariableDataType where
  | Int
  | Float
  | Bool
  | Unknown (value : Nat)

/-- InternalConstant: named game-state addresses (script.rs). -/
inductive InternalConstant where
  | CurrentFrame
  | Damage
  | CharacterXPosition
  | CharacterYPosition
  | CharacterDirection
  | CharacterDirectionOpposite
  | VerticalCharacterVelocity
  | CurrentFrameSpeed
  | HorizontalCharacterVelocity
  | Knockback
  | SurfaceTraction
  | XVelocity
  | LaunchSpeed
  | RightVelocity
  | LeftVelocity
  | UpVelocity
  | DownVelocity
  | ControlStickXAxis
  | ControlStickXAxisRelative
  | ControlStickXAxisRelativeReverse
  | ControlStickXAxisAbsolute
  | ControlStickXAxisReverse
  | ControlStickXAxisReverse2
  | ControlStickYAxis
  | ControlStickYAxisAbsolute
  | ControlStickYAxisReverse
  | ControlStickYAxis2
  | PreviousControlStickXAxis
  | PreviousControlStickXAxisRelative
  | PreviousControlStickXAxisRelativeReverse
  | PreviousControlStickXAxisAbsolute
  | PreviousControlStickXAxisReverse
  | PreviousControlStickXAxisReverse2
  | PreviousControlStickYAxis
  | PreviousControlStickYAxisAbsolute
  | PreviousControlStickYAxisReverse
  | PreviousControlStickYAxis2
  | CurrentSubaction
  | CurrentAction
  | PreviousAction
  | HeldItem
  | EffectOfAttack
  | FramesSinceNormal
  | FramesSinceSpecial
  | FramesSinceJump
  | FramesSinceShield
  | FramesSinceShield2
  | TurnRunFrameTimer
  | JumpStartTimer
  | MaxJumpCount
  | GlideStartTimer
  | TermVelFrameTimer
  | Address (address : Nat)

/-- VariableMemory (script.rs). -/
inductive VariableMemory where
  | InternalConstant (c : InternalConstant)
  | LongtermAccess (address : Nat)
  | RandomAccess (address : Nat)
  | Unknown (memory_type : Nat) (memory_address : Nat)

/-- Variable (script.rs). -/
structure Variable where
  memory : VariableMemory
  data_type : VariableDataType

/-- Requirement (script.rs). -/
inductive Requirement where
  | CharacterExists
  | AnimationEnd
  | AnimationHasLooped
  | OnGround
  | InAir
  | HoldingALedge
  | OnAPassableFloor
  | Comparison
  | BoolIsTrue
  | FacingRight
  | FacingLeft
  | HitboxConnects
  | TouchingAFloorWallOrCeiling
  | IsThrowingSomeone
  | ButtonTap
  | EnteringOrIsInHitLag
  | ArticleExists
  | HasAFloorBelowThePlayer
  | ChangeInAirGroundState
  | ArticleAvailable
  | HoldingItem
  | HoldingItemOfType
  | LightItemIsInGrabRange
  | HeavyItemIsInGrabRange
  | ItemOfTypeIsInGrabbingRange
  | TurningWithItem
  | InWater
  | RollADie
  | SubactionExists
  | ButtonMashingOrStatusExpiredSleepBuryFreeze
  | IsNotInDamagingLens
  | ButtonPress
  | ButtonRelease
  | ButtonPressed
  | ButtonNotPressed
  | StickDirectionPressed
  | StickDirectionNotPressed
  | IsBeingThrownBySomeone1
  | IsBeingThrownBySomeone2
  | HasntTethered3Times
  | HasPassedOverAnEdgeForward
  | HasPassedOverAnEdgeBackward
  | IsHoldingSomeoneInGrab
  | HitboxHasConnected
  | PickUpItem
  | HitByCapeEffect
  | InWalljump
  | InWallCling
  | InFootstoolRange
  | IsFallingOrHitDown
  | HasSmashBall
  | CanPickupAnotherItem
  | FSmashShorcut
  | TapJumpOn
  | Unknown (value : Int)

/-- Argument (script.rs). `Scalar` keeps the raw i32 numerator: the source
stores `data as f32 / 60000.0`, a floating-point value outside this model. -/
inductive Argument where
  | Value (data : Int)
  | Scalar (raw : Int)
  | Offset (data : Int)
  | Bool (b : Bool)
  | File (data : Int)
  | Variable (v : Variable)
  | Requirement (flip : Bool) (ty : Requirement)
  | Unknown (ty : Int) (data : Int)

/-- Event (script.rs); `namespc` embeds the source field `namespace`
(a Lean keyword). -/
structure Event where
  namespc : Nat
  code : Nat
  unk1 : Nat
  arguments : List Argument

/-- Script (script.rs). -/
structure Script where
  events : List Event
  offset : Nat

/-- InternalConstant::new (script.rs): the decimal address table. -/
def InternalConstant.new (address : Nat) : InternalConstant :=
  match address with
  | 0 => .CurrentFrame
  | 2 => .Damage
  | 3 => .CharacterXPosition
  | 4 => .CharacterYPosition
  | 8 => .CharacterDirection
  | 9 => .CharacterDirectionOpposite
  | 23 => .VerticalCharacterVelocity
  | 24 => .CurrentFrameSpeed
  | 28 => .HorizontalCharacterVelocity
  | 38 => .Knockback
  | 39 => .SurfaceTraction
  | 1000 => .XVelocity
  | 1005 => .LaunchSpeed
  | 1006 => .RightVelocity
  | 1007 => .LeftVelocity
  | 1008 => .UpVelocity
  | 1009 => .DownVelocity
  | 1010 => .ControlStickXAxis
  | 1011 => .ControlStickXAxisRelative
  | 1012 => .ControlStickXAxisRelativeReverse
  | 1013 => .ControlStickXAxisAbsolute
  | 1014 => .ControlStickXAxisReverse
  | 1017 => .ControlStickXAxisReverse2
  | 1018 => .ControlStickYAxis
  | 1019 => .ControlStickYAxisAbsolute
  | 1020 => .ControlStickYAxisReverse
  | 1021 => .ControlStickYAxis2
  | 1022 => .PreviousControlStickXAxis
  | 1023 => .PreviousControlStickXAxisRelative
  | 1024 => .PreviousControlStickXAxisRelativeReverse
  | 1025 => .PreviousControlStickXAxisAbsolute
  | 1026 => .PreviousControlStickYAxis
  | 1027 => .PreviousControlStickYAxisAbsolute
  | 1028 => .PreviousControlStickYAxisReverse
  | 20000 => .CurrentSubaction
  | 20001 => .CurrentAction
  | 20003 => .PreviousAction
  | 20009 => .HeldItem
  | 21004 => .EffectOfAttack
  | 21010 => .FramesSinceNormal
  | 21012 => .FramesSinceSpecial
  | 21014 => .FramesSinceJump
  | 21016 => .FramesSinceShield
  | 21018 => .FramesSinceShield2
  | 23001 => .TurnRunFrameTimer
  | 23002 => .JumpStartTimer
  | 23003 => .MaxJumpCount
  | 23004 => .GlideStartTimer
  | 23007 => .TermVelFrameTimer
  | _ => .Address address

/-- VariableMemory::new (script.rs). -/
def VariableMemory.new (memory_type : Nat) (memory_address : Nat) : VariableMemory :=
  match memory_type with
  | 0 => .InternalConstant (InternalConstant.new memory_address)
  | 1 => .LongtermAccess memory_address
  | 2 => .RandomAccess memory_address
  | _ => .Unknown memory_type memory_address

/-- VariableDataType::new (script.rs). -/
def VariableDataType.new (value : Nat) : VariableDataType :=
  match value with
  | 0 => .Int
  | 1 => .Float
  | 2 => .Bool
  | _ => .Unknown value

/-- Requirement::new (script.rs): builds an `Argument::Requirement`.
`flip` is the source's `value >> 31 == 1` (arithmetic shift on i32),
`ty` matches on `value & 0xFF`. -/
def Requirement.new (value : Int) : Argument :=
  let flip := i32shr value 31 == 1
  let ty : Requirement :=
    match (i32land255 value).toNat with
    | 0 => .CharacterExists
    | 1 => .AnimationEnd
    | 2 => .AnimationHasLooped
    | 3 => .OnGround
    | 4 => .InAir
    | 5 => .HoldingALedge
    | 6 => .OnAPassableFloor
    | 7 => .Comparison
    | 8 => .BoolIsTrue
    | 9 => .FacingRight
    | 10 => .FacingLeft
    | 11 => .HitboxConnects
    | 12 => .TouchingAFloorWallOrCeiling
    | 13 => .IsThrowingSomeone
    | 15 => .ButtonTap
    | 20 => .EnteringOrIsInHitLag
    | 21 => .ArticleExists
    | 23 => .HasAFloorBelowThePlayer
    | 27 => .ChangeInAirGroundState
    | 28 => .ArticleAvailable
    | 31 => .HoldingItem
    | 32 => .HoldingItemOfType
    | 33 => .LightItemIsInGrabRange
    | 34 => .HeavyItemIsInGrabRange
    | 35 => .ItemOfTypeIsInGrabbingRange
    | 36 => .TurningWithItem
    | 42 => .InWater
    | 43 => .RollADie
    | 44 => .SubactionExists
    | 46 => .ButtonMashingOrStatusExpiredSleepBuryFreeze
    | 47 => .IsNotInDamagingLens
    | 48 => .ButtonPress
    | 49 => .ButtonRelease
    | 50 => .ButtonPressed
    | 51 => .ButtonNotPressed
    | 52 => .StickDirectionPressed
    | 53 => .StickDirectionNotPressed
    | 55 => .IsBeingThrownBySomeone1
    | 56 => .IsBeingThrownBySomeone2
    | 57 => .HasntTethered3Times
    | 58 => .HasPassedOverAnEdgeForward
    | 59 => .HasPassedOverAnEdgeBackward
    | 60 => .IsHoldingSomeoneInGrab
    | 61 => .HitboxHasConnected
    | 71 => .PickUpItem
    | 76 => .HitByCapeEffect
    | 103 => .InWalljump
    | 104 => .InWallCling
    | 105 => .InFootstoolRange
    | 108 => .IsFallingOrHitDown
    | 109 => .HasSmashBall
    | 111 => .CanPickupAnotherItem
    | 115 => .FSmashShorcut
    | 123 => .TapJumpOn
    | _ => .Unknown (i32land255 value)
  Argument.Requirement flip ty

/-- One argument record of `arguments` (script.rs lines 94-113): the match
on `ty` producing an `Argument`. -/
def mkArgument (ty data : Int) : Argument :=
  if ty = 0 then .Value data
  else if ty = 1 then .Scalar data
  else if ty = 2 then .Offset data
  else if ty = 3 then .Bool (data == 1)
  else if ty = 4 then .File data
  else if ty = 5 then
    let d := u32ofInt data
    let memory_type := (d &&& 0xF0000000) >>> 28
    let data_type := (d &&& 0x0F000000) >>> 24
    let memory_address := d &&& 0x00FFFFFF
    let memory := VariableMemory.new memory_type memory_address
    let data_type := VariableDataType.new data_type
    .Variable ⟨memory, data_type⟩
  else if ty = 6 then Requirement.new data
  else .Unknown ty data

/-- Recursion of `arguments` (script.rs): record `i` lives at
`argument_offset + i * 8`; each big-endian read may panic (`none`). -/
def argumentsFrom (pd : List Nat) (off : Nat) : Nat → Option (List Argument)
  | 0 => some []
  | n+1 =>
    match readI32 pd off, readI32 pd (off + 4) with
    | some ty, some data =>
      match argumentsFrom pd (off + 8) n with
      | some rest => some (mkArgument ty data :: rest)
      | none => none
    | _, _ => none

/-- arguments (script.rs line 87): decode `num_arguments` 8-byte records. -/
def arguments (pd : List Nat) (argument_offset num_arguments : Nat) : Option (List Argument) :=
  argumentsFrom pd argument_offset num_arguments

/-- Event loop of new_script (script.rs lines 46-78): walk 8-byte events,
stop at the `(namespace, code) = (0, 0)` sentinel or an `argument_offset`
past the end of the blob; skip `FADEF00D`/`FADE0D8A` events; `none` models
the out-of-bounds panics of the raw index reads. -/
def new_script_events (pd : List Nat) (eo : Nat) (events : List Event) : Option (List Event) :=
  if h : eo < pd.length then
    match byteAt pd eo, byteAt pd (eo+1), byteAt pd (eo+2), byteAt pd (eo+3), readU32 pd eo with
    | some namespc, some code, some num_arguments, some unk1, some raw_id =>
      if code = 0 ∧ namespc = 0 then some events
      else if raw_id ≠ 0xFADEF00D ∧ raw_id ≠ 0xFADE0D8A then
        match readU32 pd (eo+4) with
        | some argument_offset =>
          if argument_offset ≥ pd.length then some events
          else
            match arguments pd argument_offset num_arguments with
            | some args => new_script_events pd (eo+8) (events ++ [⟨namespc, code, unk1, args⟩])
            | none => none
        | none => none
      else new_script_events pd (eo+8) events
    | _, _, _, _, _ => none
  else none
termination_by pd.length - eo
decreasing_by all_goals omega

/-- new_script (script.rs line 42): events decoded only when
`0 < offset < pd.length`; the script records `offset as u32`. -/
def new_script (pd : List Nat) (offset : Nat) : Option Script :=
  if 0 < offset ∧ offset < pd.length then
    match new_script_events pd offset [] with
    | some events => some ⟨events, offset % 2^32⟩
    | none => none
  else some ⟨[], offset % 2^32⟩

/-- Body of the fragment_scripts event loop (script.rs lines 17-36): for a
subroutine/goto event whose first argument is an `Offset`, push a newly
decoded script unless the offset belongs to an action script or an already
discovered fragment. -/
def fragmentStep (pd : List Nat) (action_scripts : List (List Script))
    (fragments : List Script) (event : Event) : Option (List Script) :=
  if event.namespc = 0 ∧ (event.code = 7 ∨ event.code = 9) then
    match event.arguments.head? with
    | some (Argument.Offset o) =>
      let is_action := action_scripts.any (fun l => l.any (fun s => s.offset == u32ofInt o))
      let already_added := fragments.any (fun s => s.offset == u32ofInt o)
      if !is_action && !already_added then
        match new_script pd (usizeOfInt o) with
        | some s => some (fragments ++ [s])
        | none => none
      else some fragments
    | _ => some fragments
  else some fragments

/-- fragment_scripts: loop over one script's events. -/
def fragmentEvents (pd : List Nat) (action_scripts : List (List Script))
    (fragments : List Script) : List Event → Option (List Script)
  | [] => some fragments
  | e :: es =>
    match fragmentStep pd action_scripts fragments e with
    | some f => fragmentEvents pd action_scripts f es
    | none => none

/-- fragment_scripts: loop over one action table's scripts. -/
def fragmentScripts1 (pd : List Nat) (action_scripts : List (List Script))
    (fragments : List Script) : List Script → Option (List Script)
  | [] => some fragments
  | s :: ss =>
    match fragmentEvents pd action_scripts fragments s.events with
    | some f => fragmentScripts1 pd action_scripts f ss
    | none => none

/-- fragment_scripts: loop over the action tables. -/
def fragmentLists (pd : List Nat) (action_scripts : List (List Script))
    (fragments : List Script) : List (List Script) → Option (List Script)
  | [] => some fragments
  | l :: ls =>
    match fragmentScripts1 pd action_scripts fragments l with
    | some f => fragmentLists pd action_scripts f ls
    | none => none

/-- fragment_scripts (script.rs line 13). -/
def fragment_scripts (pd : List Nat) (action_scripts : List (List Script)) : Option (List Script) :=
  fragmentLists pd action_scripts [] action_scripts

/-! ## WiiRD data model (src/wiird.rs) -/

/-- JumpFlag (wiird.rs). -/
inductive JumpFlag where
  | WhenTrue
  | WhenFalse
  | Always

/-- AddAddress (wiird.rs). -/
inductive AddAddress where
  | BaseAddress
  | PointerAddress
  | None

/-- GeckoOperation (wiird.rs). -/
inductive GeckoOperation where
  | Add
  | Mul
  | Or
  | And
  | Xor
  | ShiftLeft
  | ShiftRight
  | RotateLeft
  | ArithmeticShiftRight
  | FloatAdd
  | FloatMul
  | Unknown (value : Nat)
deriving DecidableEq

/-- GeckoOperation::new (wiird.rs line 683). -/
def GeckoOperation.new (value : Nat) : GeckoOperation :=
  match value with
  | 0 => .Add
  | 1 => .Mul
  | 2 => .Or
  | 3 => .And
  | 4 => .Xor
  | 5 => .ShiftLeft
  | 6 => .ShiftRight
  | 7 => .RotateLeft
  | 8 => .ArithmeticShiftRight
  | 10 => .FloatAdd
  | 11 => .FloatMul
  | _ => .Unknown value

/-- IfTest (wiird.rs). -/
inductive IfTest where
  | IsEqual (use_base_address : Bool) (address : Nat) (value : Nat)
  | IsNotEqual (use_base_address : Bool) (address : Nat) (value : Nat)
  | IsGreaterThan (use_base_address : Bool) (address : Nat) (value : Nat)
  | IsLessThan (use_base_address : Bool) (address : Nat) (value : Nat)
  | IsEqualMask (use_base_address : Bool) (address : Nat) (lhs_mask : Nat) (rhs_value : Nat)
  | IsNotEqualMask (use_base_address : Bool) (address : Nat) (lhs_mask : Nat) (rhs_value : Nat)
  | IsGreaterThanMask (use_base_address : Bool) (address : Nat) (lhs_mask : Nat) (rhs_value : Nat)
  | IsLessThanMask (use_base_address : Bool) (address : Nat) (lhs_mask : Nat) (rhs_value : Nat)

/-- WiiRDCode (wiird.rs). The source wraps nested blocks in the one-field
struct `WiiRDBlock { codes }`; the embedding stores the `codes` list
directly in `IfStatement` and rewraps at the `wiird_codes` boundary. -/
inductive WiiRDCode where
  | WriteAndFill8 (use_base_address : Bool) (address : Nat) (value : Nat) (length : Nat)
  | WriteAndFill16 (use_base_address : Bool) (address : Nat) (value : Nat) (length : Nat)
  | WriteAndFill32 (use_base_address : Bool) (address : Nat) (value : Nat)
  | StringWrite (use_base_address : Bool) (address : Nat) (values : List Nat)
  | SerialWrite (use_base_address : Bool) (address : Nat) (initial_value : Nat)
      (value_size : Nat) (count : Nat) (address_increment : Nat) (value_increment : Nat)
  | IfStatement (test : IfTest) (then_branch : List WiiRDCode)
      (else_branch : Option (List WiiRDCode))
      (reset_base_address_high : Nat) (reset_pointer_address_high : Nat)
  | LoadBaseAddress (add_result : Bool) (add_mem_address : AddAddress)
      (add_mem_address_gecko_register : Option Nat) (mem_address : Nat)
  | SetBaseAddress (add_result : Bool) (add : AddAddress)
      (add_gecko_register : Option Nat) (value : Nat)
  | StoreBaseAddress (add_mem_address : AddAddress)
      (add_mem_address_gecko_register : Option Nat) (mem_address : Nat)
  | SetBaseAddressToCodeLocation (address_offset : Int)
  | LoadPointerAddress (add_result : Bool) (add_mem_address : AddAddress)
      (add_mem_address_gecko_register : Option Nat) (mem_address : Nat)
  | SetPointerAddress (add_result : Bool) (add : AddAddress)
      (add_gecko_register : Option Nat) (value : Nat)
  | StorePointerAddress (add_mem_address : AddAddress)
      (add_mem_address_gecko_register : Option Nat) (mem_address : Nat)
  | SetPointerAddressToCodeLocation (address_offset : Int)
  | SetRepeat (count : Nat) (block_id : Nat)
  | ExecuteRepeat (block_id : Nat)
  | Return (flag : JumpFlag) (block_id : Nat)
  | Goto (flag : JumpFlag) (offset_lines : Int)
  | Subroutine (flag : JumpFlag) (offset_lines : Int) (block_id : Nat)
  | SetGeckoRegister (add_result : Bool) (add : AddAddress) (register : Nat) (value : Nat)
  | LoadGeckoRegister (register : Nat) (mem_address : Nat)
  | StoreGeckoRegister (register : Nat) (mem_address : Nat)
  | OperationGeckoRegisterDirectValue (operation : GeckoOperation) (load_register : Bool)
      (load_value : Bool) (register : Nat) (value : Nat)
  | OperationGeckoRegister (operation : GeckoOperation) (load_register1 : Bool)
      (load_register2 : Bool) (register1 : Nat) (register2 : Nat)
  | MemoryCopy1 (use_base_address : Bool) (count : Nat) (source_register : Nat)
      (dest_register : Option Nat) (dest_offset : Nat)
  | MemoryCopy2 (use_base_address : Bool) (count : Nat) (source_register : Option Nat)
      (dest_register : Nat) (source_offset : Nat)
  | ExecutePPC (instruction_data : List Nat)
  | InsertPPC (use_base_address : Bool) (address : Nat) (instruction_data : List Nat)
  | ResetAddressHigh (reset_base_address_high : Nat) (reset_pointer_address_high : Nat)
  | Else (endif_count : Nat) (reset_base_address_high : Nat) (reset_pointer_address_high : Nat)

/-- WiiRDBlock (wiird.rs): the top-level tree wrapper. -/
structure WiiRDBlock where
  codes : List WiiRDCode

/-- EndIfCount (wiird.rs). -/
inductive EndIfCount where
  | Infinite
  | Finite (x : Nat)

/-- ProcessedBlock (wiird.rs): the sum type returned by process_block;
`then_branch` holds the block's codes list. -/
inductive ProcessedBlock where
  | Finished (codes : List WiiRDCode)
  | EndIf (count : EndIfCount) (then_branch : List WiiRDCode) (bytes_processed : Nat)
      (reset_base_address_high : Nat) (reset_pointer_address_high : Nat)

/-- Result of the fueled decoder: a ProcessedBlock, a Rust panic, or fuel
exhaustion (which only happens when the source loops forever). -/
inductive PBResult where
  | ok (p : ProcessedBlock)
  | panic
  | noFuel

/-- What one iteration of the process_block `while` loop does, before the
loop decides whether to recurse, return, or continue. -/
inductive DecodeAction where
  | emit (c : WiiRDCode) (off : Nat)
  | skip (off : Nat)
  | stop
  | enterIf (test : IfTest) (off : Nat)
  | resetE0 (reset_base_address_high reset_pointer_address_high : Nat) (off : Nat)
  | resetE2 (else_branch : Bool) (count : Nat)
      (reset_base_address_high reset_pointer_address_high : Nat) (off : Nat)
  | panic

/-- The Rust `match (add_bool, use_base_address)` used by the 40-4C arms. -/
def addAddressOf (b use_base_address : Bool) : AddAddress :=
  match b, use_base_address with
  | true, true => .BaseAddress
  | true, false => .PointerAddress
  | false, _ => .None

/-- Jump flag byte of the 64/66/68 arms; `none` is the unknown-flag error. -/
def jumpFlagOf (b : Nat) : Option JumpFlag :=
  match b with
  | 0x00 => some .WhenTrue
  | 0x10 => some .WhenFalse
  | 0x20 => some .Always
  | _ => none

/-- Sequential payload bytes `data[start .. start+n]`; `none` models the
index panic of the `data[offset + 8 + i]` loops (0x06, 0xC0, 0xC2). -/
def readBytes (data : List Nat) (start : Nat) : Nat → Option (List Nat)
  | 0 => some []
  | n+1 =>
    match byteAt data start, readBytes data (start+1) n with
    | some b, some rest => some (b :: rest)
    | _, _ => none

/-- The opcode families of the dispatch `data[offset] & 0b11101110`
(wiird.rs line 90), one constructor per match arm of the source. -/
inductive OpKind where
  | x00 | x02 | x04 | x06 | x08
  | x20 | x22 | x24 | x26 | x28 | x2A | x2C | x2E
  | x40 | x42 | x44 | x46 | x48 | x4A | x4C | x4E
  | x60 | x62 | x64 | x66 | x68
  | x80 | x82 | x84 | x86 | x88 | x8A | x8C
  | xC0 | xC2 | xE0 | xE2 | xF0
  | unknown

/-- The dispatch table: which arm fires for a masked opcode byte. -/
def opKindOf (code : Nat) : OpKind :=
  match code with
  | 0x00 => .x00
  | 0x02 => .x02
  | 0x04 => .x04
  | 0x06 => .x06
  | 0x08 => .x08
  | 0x20 => .x20
  | 0x22 => .x22
  | 0x24 => .x24
  | 0x26 => .x26
  | 0x28 => .x28
  | 0x2A => .x2A
  | 0x2C => .x2C
  | 0x2E => .x2E
  | 0x40 => .x40
  | 0x42 => .x42
  | 0x44 => .x44
  | 0x46 => .x46
  | 0x48 => .x48
  | 0x4A => .x4A
  | 0x4C => .x4C
  | 0x4E => .x4E
  | 0x60 => .x60
  | 0x62 => .x62
  | 0x64 => .x64
  | 0x66 => .x66
  | 0x68 => .x68
  | 0x80 => .x80
  | 0x82 => .x82
  | 0x84 => .x84
  | 0x86 => .x86
  | 0x88 => .x88
  | 0x8A => .x8A
  | 0x8C => .x8C
  | 0xC0 => .xC0
  | 0xC2 => .xC2
  | 0xE0 => .xE0
  | 0xE2 => .xE2
  | 0xF0 => .xF0
  | _ => .unknown

/-- Dispatch of one process_block loop iteration (wiird.rs lines 90-538)
on `code = data[offset] & 0b11101110`, extracting the opcode's fields.
The source handles the eight conditional opcodes in one grouped arm that
re-matches `code` to build the test; here each gets its own arm of the
same content. Offsets use plain `Nat` addition except the 0x66
Always-goto skip, where the source's `offset += 8 * offset_lines as usize`
wraps modulo `2^64` (Rust release arithmetic) and the wrap is observable
for negative `offset_lines`. -/
def decodeOneBody (data : List Nat) (offset : Nat) (use_base_address : Bool)
    (address code : Nat) : DecodeAction :=
  match opKindOf code with
  | .x00 =>
    match byteAt data (offset+7), readU16 data (offset+4) with
    | some value, some len0 =>
      .emit (.WriteAndFill8 use_base_address address value (len0 + 1)) (offset+8)
    | _, _ => .panic
  | .x02 =>
    match readU16 data (offset+6), readU16 data (offset+4) with
    | some value, some len0 =>
      .emit (.WriteAndFill16 use_base_address address value (len0 + 1)) (offset+8)
    | _, _ => .panic
  | .x04 =>
    match readU32 data (offset+4) with
    | some value => .emit (.WriteAndFill32 use_base_address address value) (offset+8)
    | none => .panic
  | .x06 =>
    match readU32 data (offset+4) with
    | some count =>
      match readBytes data (offset+8) count with
      | some values =>
        let sw1 := offset + 8 + count
        let sw2 := if count % 8 ≠ 0 then sw1 + (8 - count % 8) else sw1
        .emit (.StringWrite use_base_address address values) sw2
      | none => .panic
    | none => .panic
  | .x08 =>
    match readU32 data (offset+4), byteAt data (offset+8), readU16 data (offset+8),
          readU16 data (offset+10), readU32 data (offset+12) with
    | some initial_value, some value_size, some cnt, some address_increment, some value_increment =>
      .emit (.SerialWrite use_base_address address initial_value value_size
        ((cnt &&& 0x0FFF) + 1) address_increment value_increment) (offset+16)
    | _, _, _, _, _ => .panic
  | .x20 =>
    match readU32 data (offset+4), readU16 data (offset+4), readU16 data (offset+6) with
    | some value, some _lhs_mask, some _rhs_value =>
      .enterIf (.IsEqual use_base_address (address &&& 0xFFFFFFFE) value) (offset+8)
    | _, _, _ => .panic
  | .x22 =>
    match readU32 data (offset+4), readU16 data (offset+4), readU16 data (offset+6) with
    | some value, some _lhs_mask, some _rhs_value =>
      .enterIf (.IsNotEqual use_base_address (address &&& 0xFFFFFFFE) value) (offset+8)
    | _, _, _ => .panic
  | .x24 =>
    match readU32 data (offset+4), readU16 data (offset+4), readU16 data (offset+6) with
    | some value, some _lhs_mask, some _rhs_value =>
      .enterIf (.IsGreaterThan use_base_address (address &&& 0xFFFFFFFE) value) (offset+8)
    | _, _, _ => .panic
  | .x26 =>
    match readU32 data (offset+4), readU16 data (offset+4), readU16 data (offset+6) with
    | some value, some _lhs_mask, some _rhs_value =>
      .enterIf (.IsLessThan use_base_address (address &&& 0xFFFFFFFE) value) (offset+8)
    | _, _, _ => .panic
  | .x28 =>
    match readU32 data (offset+4), readU16 data (offset+4), readU16 data (offset+6) with
    | some _value, some lhs_mask, some rhs_value =>
      .enterIf (.IsEqualMask use_base_address (address &&& 0xFFFFFFFE) lhs_mask rhs_value) (offset+8)
    | _, _, _ => .panic
  | .x2A =>
    match readU32 data (offset+4), readU16 data (offset+4), readU16 data (offset+6) with
    | some _value, some lhs_mask, some rhs_value =>
      .enterIf (.IsNotEqualMask use_base_address (address &&& 0xFFFFFFFE) lhs_mask rhs_value) (offset+8)
    | _, _, _ => .panic
  | .x2C =>
    match readU32 data (offset+4), readU16 data (offset+4), readU16 data (offset+6) with
    | some _value, some lhs_mask, some rhs_value =>
      .enterIf (.IsGreaterThanMask use_base_address (address &&& 0xFFFFFFFE) lhs_mask rhs_value) (offset+8)
    | _, _, _ => .panic
  | .x2E =>
    match readU32 data (offset+4), readU16 data (offset+4), readU16 data (offset+6) with
    | some _value, some lhs_mask, some rhs_value =>
      .enterIf (.IsLessThanMask use_base_address (address &&& 0xFFFFFFFE) lhs_mask rhs_value) (offset+8)
    | _, _, _ => .panic
  | .x40 =>
    match byteAt data (offset+1), byteAt data (offset+2), byteAt data (offset+3),
          readU32 data (offset+4) with
    | some b1, some b2, some b3, some mem_address =>
      let add_result := b1 &&& 0b00010000 != 0
      let add_mem_address := addAddressOf (b1 &&& 1 != 0) use_base_address
      let reg := if b2 &&& 0b00010000 != 0 then some (b3 &&& 0xF) else none
      .emit (.LoadBaseAddress add_result add_mem_address reg mem_address) (offset+8)
    | _, _, _, _ => .panic
  | .x42 =>
    match byteAt data (offset+1), byteAt data (offset+2), byteAt data (offset+3),
          readU32 data (offset+4) with
    | some b1, some b2, some b3, some value =>
      let add_result := b1 &&& 0b00010000 != 0
      let add := addAddressOf (b1 &&& 1 != 0) use_base_address
      let reg := if b2 &&& 0b00010000 != 0 then some (b3 &&& 0xF) else none
      .emit (.SetBaseAddress add_result add reg value) (offset+8)
    | _, _, _, _ => .panic
  | .x44 =>
    match byteAt data (offset+1), byteAt data (offset+2), byteAt data (offset+3),
          readU32 data (offset+4) with
    | some b1, some b2, some b3, some mem_address =>
      let add_mem_address := addAddressOf (b1 &&& 1 != 0) use_base_address
      let reg := if b2 &&& 0b00010000 != 0 then some (b3 &&& 0xF) else none
      .emit (.StoreBaseAddress add_mem_address reg mem_address) (offset+8)
    | _, _, _, _ => .panic
  | .x46 =>
    match readI16 data (offset+2) with
    | some address_offset => .emit (.SetBaseAddressToCodeLocation address_offset) (offset+8)
    | none => .panic
  | .x48 =>
    match byteAt data (offset+1), byteAt data (offset+2), byteAt data (offset+3),
          readU32 data (offset+4) with
    | some b1, some b2, some b3, some mem_address =>
      let add_result := b1 &&& 0b00010000 != 0
      let add_mem_address := addAddressOf (b1 &&& 1 != 0) use_base_address
      let reg := if b2 &&& 0b00010000 != 0 then some (b3 &&& 0xF) else none
      .emit (.LoadPointerAddress add_result add_mem_address reg mem_address) (offset+8)
    | _, _, _, _ => .panic
  | .x4A =>
    match byteAt data (offset+1), byteAt data (offset+2), byteAt data (offset+3),
          readU32 data (offset+4) with
    | some b1, some b2, some b3, some value =>
      let add_result := b1 &&& 0b00010000 != 0
      let add := addAddressOf (b1 &&& 1 != 0) use_base_address
      let reg := if b2 &&& 0b00010000 != 0 then some (b3 &&& 0xF) else none
      .emit (.SetPointerAddress add_result add reg value) (offset+8)
    | _, _, _, _ => .panic
  | .x4C =>
    match byteAt data (offset+1), byteAt data (offset+2), byteAt data (offset+3),
          readU32 data (offset+4) with
    | some b1, some b2, some b3, some mem_address =>
      let add_mem_address := addAddressOf (b1 &&& 1 != 0) use_base_address
      let reg := if b2 &&& 0b00010000 != 0 then some (b3 &&& 0xF) else none
      .emit (.StorePointerAddress add_mem_address reg mem_address) (offset+8)
    | _, _, _, _ => .panic
  | .x4E =>
    match readI16 data (offset+2) with
    | some address_offset => .emit (.SetPointerAddressToCodeLocation address_offset) (offset+8)
    | none => .panic
  | .x60 =>
    match readU16 data (offset+2), byteAt data (offset+7) with
    | some count, some block_id => .emit (.SetRepeat count block_id) (offset+8)
    | _, _ => .panic
  | .x62 =>
    match byteAt data (offset+7) with
    | some b7 => .emit (.ExecuteRepeat (b7 &&& 0xF)) (offset+8)
    | none => .panic
  | .x64 =>
    match byteAt data (offset+1) with
    | some b1 =>
      match jumpFlagOf b1 with
      | none => .stop
      | some flag =>
        match byteAt data (offset+7) with
        | some b7 => .emit (.Return flag (b7 &&& 0xF)) (offset+8)
        | none => .panic
    | none => .panic
  | .x66 =>
    match byteAt data (offset+1) with
    | some b1 =>
      match jumpFlagOf b1 with
      | none => .stop
      | some flag =>
        match readI16 data (offset+2) with
        | some offset_lines =>
          match flag with
          | .Always => .skip ((offset + 8 + 8 * usizeOfInt offset_lines) % 2^64)
          | _ => .emit (.Goto flag offset_lines) (offset+8)
        | none => .panic
    | none => .panic
  | .x68 =>
    match byteAt data (offset+1) with
    | some b1 =>
      match jumpFlagOf b1 with
      | none => .stop
      | some flag =>
        match readI16 data (offset+2), byteAt data (offset+7) with
        | some offset_lines, some b7 =>
          .emit (.Subroutine flag offset_lines (b7 &&& 0xF)) (offset+8)
        | _, _ => .panic
    | none => .panic
  | .x80 =>
    match byteAt data (offset+1), byteAt data (offset+3), readU32 data (offset+4) with
    | some b1, some b3, some value =>
      let add_result := b1 &&& 0b00010000 != 0
      let add := addAddressOf (b1 &&& 1 != 0) use_base_address
      .emit (.SetGeckoRegister add_result add (b3 &&& 0xF) value) (offset+8)
    | _, _, _ => .panic
  | .x82 =>
    match byteAt data (offset+3), readU32 data (offset+4) with
    | some b3, some mem_address => .emit (.LoadGeckoRegister (b3 &&& 0xF) mem_address) (offset+8)
    | _, _ => .panic
  | .x84 =>
    match byteAt data (offset+3), readU32 data (offset+4) with
    | some b3, some mem_address => .emit (.StoreGeckoRegister (b3 &&& 0xF) mem_address) (offset+8)
    | _, _ => .panic
  | .x86 =>
    match byteAt data (offset+1), byteAt data (offset+3), readU32 data (offset+4) with
    | some b1, some b3, some value =>
      let operation := GeckoOperation.new (b1 &&& 0xF0)
      .emit (.OperationGeckoRegisterDirectValue operation (b1 &&& 0b00000001 != 0)
        (b1 &&& 0b00000010 != 0) (b3 &&& 0x0F) value) (offset+8)
    | _, _, _ => .panic
  | .x88 =>
    match byteAt data (offset+1), byteAt data (offset+3), byteAt data (offset+7) with
    | some b1, some b3, some b7 =>
      let operation := GeckoOperation.new (b1 &&& 0xF0)
      .emit (.OperationGeckoRegister operation (b1 &&& 0b00000001 != 0)
        (b1 &&& 0b00000010 != 0) (b3 &&& 0x0F) (b7 &&& 0x0F)) (offset+8)
    | _, _, _ => .panic
  | .x8A =>
    match readU16 data (offset+1), byteAt data (offset+3), readU32 data (offset+4) with
    | some count, some b3, some dest_offset =>
      let source_register := b3 &&& 0xF0
      let dest_register := if b3 &&& 0x0F == 0x0F then none else some (b3 &&& 0x0F)
      .emit (.MemoryCopy1 use_base_address count source_register dest_register dest_offset)
        (offset+8)
    | _, _, _ => .panic
  | .x8C =>
    match readU16 data (offset+1), byteAt data (offset+3), readU32 data (offset+4) with
    | some count, some b3, some source_offset =>
      let source_register := if b3 &&& 0xF0 == 0x0F then none else some (b3 &&& 0xF0)
      let dest_register := b3 &&& 0x0F
      .emit (.MemoryCopy2 use_base_address count source_register dest_register source_offset)
        (offset+8)
    | _, _, _ => .panic
  | .xC0 =>
    match readU32 data (offset+4) with
    | some count =>
      match readBytes data (offset+8) (count * 8) with
      | some instruction_data => .emit (.ExecutePPC instruction_data) (offset + 8 + count * 8)
      | none => .panic
    | none => .panic
  | .xC2 =>
    match readU32 data (offset+4) with
    | some count =>
      match readBytes data (offset+8) (count * 8) with
      | some instruction_data =>
        .emit (.InsertPPC use_base_address address instruction_data) (offset + 8 + count * 8)
      | none => .panic
    | none => .panic
  | .xE0 =>
    match readU16 data (offset+4), readU16 data (offset+6) with
    | some rbah, some rpah => .resetE0 rbah rpah (offset+8)
    | _, _ => .panic
  | .xE2 =>
    match byteAt data (offset+1), byteAt data (offset+3), readU16 data (offset+4),
          readU16 data (offset+6) with
    | some b1, some count, some rbah, some rpah =>
      .resetE2 (b1 &&& 0x10 != 0) count rbah rpah (offset+8)
    | _, _, _, _ => .panic
  | .xF0 =>
    -- End of codes. Dead arm: `b0 &&& 0b11101110` clears bit 4, so the
    -- dispatch value can never be 0xF0; mirrored verbatim from the source
    -- (empty body, the offset is not advanced).
    .skip offset
  | .unknown => .stop

/-- One iteration of the process_block loop body (wiird.rs lines 85-538):
read the header fields shared by all opcodes, then dispatch. -/
def decodeOne (data : List Nat) (offset : Nat) : DecodeAction :=
  match byteAt data offset, readU32 data offset with
  | some b0, some w =>
    decodeOneBody data offset (b0 &&& 0b00010000 == 0) (w &&& 0x1FFFFFF) (b0 &&& 0b11101110)
  | _, _ => .panic

/-- The process_block `while` loop (wiird.rs line 82), fueled. On an
if-opcode the source recurses into `&data[offset..]` with
`is_nested = true`; an `EndIf` answer appends the `IfStatement` and either
propagates the (decremented, u8-wrapping) endif count upward or pushes a
`ResetAddressHigh` and keeps looping; a `Finished` answer is the
unterminated-if error path, which returns an empty block. -/
def process_block_from : Nat → List Nat → Bool → Nat → List WiiRDCode → PBResult
  | 0, _, _, _, _ => .noFuel
  | fuel+1, data, is_nested, offset, codes =>
    if offset < data.length then
      match decodeOne data offset with
      | .panic => .panic
      | .stop => .ok (.Finished codes)
      | .emit c off => process_block_from fuel data is_nested off (codes ++ [c])
      | .skip off => process_block_from fuel data is_nested off codes
      | .enterIf test off =>
        match process_block_from fuel (data.drop off) true 0 [] with
        | .ok (.EndIf count then_branch bytes_processed rbah rpah) =>
          let off2 := off + bytes_processed
          let codes2 := codes ++ [.IfStatement test then_branch none rbah rpah]
          let count2 : EndIfCount :=
            match count with
            | .Infinite => .Infinite
            | .Finite x => .Finite ((x + 255) % 256)
          let multi_endif :=
            match count2 with
            | .Infinite => true
            | .Finite x => decide (0 < x)
          if multi_endif && is_nested then .ok (.EndIf count2 codes2 off2 rbah rpah)
          else process_block_from fuel data is_nested off2 (codes2 ++ [.ResetAddressHigh rbah rpah])
        | .ok (.Finished _) => .ok (.Finished [])
        | .panic => .panic
        | .noFuel => .noFuel
      | .resetE0 rbah rpah off =>
        if is_nested then .ok (.EndIf .Infinite codes off rbah rpah)
        else process_block_from fuel data is_nested off (codes ++ [.ResetAddressHigh rbah rpah])
      | .resetE2 eb count rbah rpah off =>
        let codes2 := if eb then codes ++ [.Else count rbah rpah] else codes
        if is_nested then
          if count ≠ 0 then .ok (.EndIf (.Finite count) codes2 off rbah rpah)
          else process_block_from fuel data is_nested off codes2
        else process_block_from fuel data is_nested off (codes2 ++ [.ResetAddressHigh rbah rpah])
    else .ok (.Finished codes)

/-- process_block (wiird.rs line 82), fueled. -/
def process_block (fuel : Nat) (data : List Nat) (is_nested : Bool) : PBResult :=
  process_block_from fuel data is_nested 0 []

/-- Top-level result of wiird_codes: a tree, a Rust panic, or fuel
exhaustion. -/
inductive DecodeResult where
  | ok (b : WiiRDBlock)
  | panic
  | noFuel

/-- wiird_codes (wiird.rs line 71): a Finished top-level run is the tree;
an EndIf at top level is the logged error path returning an empty block. -/
def wiird_codes (fuel : Nat) (data : List Nat) : DecodeResult :=
  match process_block fuel data false with
  | .ok (.Finished codes) => .ok ⟨codes⟩
  | .ok (.EndIf _ _ _ _ _) => .ok ⟨[]⟩
  | .panic => .panic
  | .noFuel => .noFuel

/-! ## Tree invariants of the decoded WiiRD block -/

/-- The address carried by an IfTest. -/
def testAddress : IfTest → Nat
  | .IsEqual _ a _ => a
  | .IsNotEqual _ a _ => a
  | .IsGreaterThan _ a _ => a
  | .IsLessThan _ a _ => a
  | .IsEqualMask _ a _ _ => a
  | .IsNotEqualMask _ a _ _ => a
  | .IsGreaterThanMask _ a _ _ => a
  | .IsLessThanMask _ a _ _ => a

/-- Node check for C9: an IfStatement's test address has its low bit 0. -/
def nodeC9 : WiiRDCode → Bool
  | .IfStatement t _ _ _ _ => decide (testAddress t % 2 = 0)
  | _ => true

/-- A GeckoOperation the decoder can build: Add, or Unknown carrying a
nonzero multiple of 16. -/
def operationInRange : GeckoOperation → Bool
  | .Add => true
  | .Unknown v => decide (v % 16 = 0 ∧ v ≠ 0)
  | _ => false

/-- Node check for C10: operation fields are in `operationInRange`. -/
def nodeC10 : WiiRDCode → Bool
  | .OperationGeckoRegisterDirectValue op _ _ _ _ => operationInRange op
  | .OperationGeckoRegister op _ _ _ _ => operationInRange op
  | _ => true

/-- Node check for the amended C5: no Goto in the tree has flag Always. -/
def nodeC5 : WiiRDCode → Bool
  | .Goto .Always _ => false
  | _ => true

mutual

/-- `p` holds at a code node and, recursively, everywhere inside its
nested branches. -/
def codeAll (p : WiiRDCode → Bool) : WiiRDCode → Bool
  | .IfStatement t tb eb r1 r2 =>
    p (.IfStatement t tb eb r1 r2) && codesAll p tb &&
      (match eb with
       | none => true
       | some b => codesAll p b)
  | c => p c

/-- `p` holds everywhere in a list of codes. -/
def codesAll (p : WiiRDCode → Bool) : List WiiRDCode → Bool
  | [] => true
  | c :: cs => codeAll p c && codesAll p cs

end

/-- What the claim-relevant invariants require of one loop action: directly
emitted codes satisfy the three node checks, and an entered if-test has an
even address. -/
def emitOK : DecodeAction → Prop
  | .emit c _ => codeAll nodeC9 c = true ∧ codeAll nodeC10 c = true ∧ codeAll nodeC5 c = true
  | .enterIf t _ => testAddress t % 2 = 0
  | _ => True

/-- The three tree invariants, read off a decoder result: they hold of a
finished block's codes and of a nested EndIf's then-branch. -/
def resInv : PBResult → Prop
  | .ok (.Finished cs) =>
    codesAll nodeC9 cs = true ∧ codesAll nodeC10 cs = true ∧ codesAll nodeC5 cs = true
  | .ok (.EndIf _ tb _ _ _) =>
    codesAll nodeC9 tb = true ∧ codesAll nodeC10 tb = true ∧ codesAll nodeC5 tb = true
  | .panic => True
  | .noFuel => True

/-- Fragment disjointness: no fragment's offset equals an action script's
offset. -/
def offsetsDisjoint (action_scripts : List (List Script)) (frags : List Script) : Prop :=
  ∀ s ∈ frags, ∀ sl ∈ action_scripts, ∀ t ∈ sl, t.offset ≠ s.offset

theorem codesAll_nil (p : WiiRDCode → Bool) : codesAll p [] = true := rfl

theorem codesAll_append (p : WiiRDCode → Bool) (l1 l2 : List WiiRDCode) :
    codesAll p (l1 ++ l2) = (codesAll p l1 && codesAll p l2) := by
  induction l1 with
  | nil => simp [codesAll]
  | cons x xs ih => simp [codesAll, ih, Bool.and_assoc]

/-- Masking with an even mask clears the low bit. -/
theorem land_fffffffe_even (a : Nat) : (a &&& 0xFFFFFFFE) % 2 = 0 := by
  rw [← Nat.and_one_is_mod, Nat.and_assoc]
  norm_num

set_option maxRecDepth 4000 in
/-- The 0x86/0x88 operation byte is masked with 0xF0 and fed unshifted to
GeckoOperation::new, so only Add or a nonzero-multiple-of-16 Unknown can
come out. -/
theorem operationInRange_new_land_f0 (b : Nat) :
    operationInRange (GeckoOperation.new (b &&& 0xF0)) = true := by
  have h2 : b &&& 0xFF = b % 256 := by
    have h := Nat.and_pow_two_sub_one_eq_mod b 8
    norm_num at h
    exact h
  have hmask : b &&& 0xF0 = (b % 256) &&& 0xF0 :=
    calc b &&& 0xF0 = b &&& (0xFF &&& 0xF0) := by rw [show (0xFF &&& 0xF0 : Nat) = 0xF0 from by decide]
      _ = (b &&& 0xFF) &&& 0xF0 := (Nat.and_assoc b 0xFF 0xF0).symm
      _ = (b % 256) &&& 0xF0 := by rw [h2]
  rw [hmask]
  have hlt : b % 256 < 256 := Nat.mod_lt _ (by norm_num)
  revert hlt
  generalize b % 256 = y
  revert y
  decide


/-- Case analysis of the dispatch: every directly emitted code and every
entered test satisfies `emitOK`. -/
theorem decodeOneBody_OK (data : List Nat) (off : Nat) (uba : Bool) (addr code : Nat)
    (c : WiiRDCode) (off2 : Nat) (h : decodeOneBody data off uba addr code = .emit c off2) :
    codeAll nodeC9 c = true ∧ codeAll nodeC10 c = true ∧ codeAll nodeC5 c = true := by
  unfold decodeOneBody at h
  repeat' split at h
  all_goals first
    | exact DecodeAction.noConfusion h
    | (cases h
       simp [codeAll, nodeC9, nodeC10, nodeC5, operationInRange_new_land_f0])
  all_goals repeat' split
  all_goals simp_all

/-- Every test entered by the dispatch has an even address: the source
masks the address with 0xFFFFFFFE before building the IfTest. -/
theorem decodeOneBody_enterIf (data : List Nat) (off : Nat) (uba : Bool) (addr code : Nat)
    (t : IfTest) (off2 : Nat) (h : decodeOneBody data off uba addr code = .enterIf t off2) :
    testAddress t % 2 = 0 := by
  unfold decodeOneBody at h
  repeat' split at h
  all_goals first
    | exact DecodeAction.noConfusion h
    | (cases h
       simp [testAddress, land_fffffffe_even])

/-- Emit lemma lifted through the header reads. -/
theorem decodeOne_emit_OK (data : List Nat) (off : Nat) (c : WiiRDCode) (off2 : Nat)
    (h : decodeOne data off = .emit c off2) :
    codeAll nodeC9 c = true ∧ codeAll nodeC10 c = true ∧ codeAll nodeC5 c = true := by
  unfold decodeOne at h
  repeat' split at h
  all_goals first
    | exact DecodeAction.noConfusion h
    | exact decodeOneBody_OK _ _ _ _ _ _ _ h

/-- EnterIf lemma lifted through the header reads. -/
theorem decodeOne_enterIf_OK (data : List Nat) (off : Nat) (t : IfTest) (off2 : Nat)
    (h : decodeOne data off = .enterIf t off2) :
    testAddress t % 2 = 0 := by
  unfold decodeOne at h
  repeat' split at h
  all_goals first
    | exact DecodeAction.noConfusion h
    | exact decodeOneBody_enterIf _ _ _ _ _ _ _ h

/-- Main loop invariant: starting from codes satisfying the three node
invariants everywhere, every result of process_block_from satisfies them
everywhere. -/
theorem process_block_from_inv :
    ∀ (fuel : Nat) (data : List Nat) (nested : Bool) (offset : Nat) (codes : List WiiRDCode),
      codesAll nodeC9 codes = true → codesAll nodeC10 codes = true →
      codesAll nodeC5 codes = true →
      resInv (process_block_from fuel data nested offset codes) := by
  intro fuel
  induction fuel with
  | zero =>
    intro data nested offset codes h9 h10 h5
    simp [process_block_from, resInv]
  | succ fuel IH =>
    intro data nested offset codes h9 h10 h5
    rw [process_block_from]
    by_cases hlt : offset < data.length
    case neg =>
      simp only [if_neg hlt, resInv]
      exact ⟨h9, h10, h5⟩
    case pos =>
    simp only [if_pos hlt]
    cases hdec : decodeOne data offset with
    | panic => simp [resInv]
    | stop => simpa [resInv] using ⟨h9, h10, h5⟩
    | emit c off =>
      obtain ⟨e9, e10, e5⟩ := decodeOne_emit_OK data offset c off hdec
      exact IH data nested off (codes ++ [c])
        (by simp [codesAll_append, codesAll, h9, e9]) (by simp [codesAll_append, codesAll, h10, e10])
        (by simp [codesAll_append, codesAll, h5, e5])
    | skip off => exact IH data nested off codes h9 h10 h5
    | enterIf t off =>
      have ht := decodeOne_enterIf_OK data offset t off hdec
      have hchild := IH (data.drop off) true 0 [] rfl rfl rfl
      cases hres : process_block_from fuel (data.drop off) true 0 [] with
      | panic => simp [hres, resInv]
      | noFuel => simp [hres, resInv]
      | ok p =>
        cases p with
        | Finished cs => simp [hres, resInv, codesAll]
        | EndIf count tb bp rbah rpah =>
          rw [hres] at hchild
          simp only [resInv] at hchild
          obtain ⟨t9, t10, t5⟩ := hchild
          have hif9 : codesAll nodeC9 (codes ++ [.IfStatement t tb none rbah rpah]) = true := by
            simp [codesAll_append, codesAll, h9, codeAll, nodeC9, t9, ht]
          have hif10 : codesAll nodeC10 (codes ++ [.IfStatement t tb none rbah rpah]) = true := by
            simp [codesAll_append, codesAll, h10, codeAll, nodeC10, t10]
          have hif5 : codesAll nodeC5 (codes ++ [.IfStatement t tb none rbah rpah]) = true := by
            simp [codesAll_append, codesAll, h5, codeAll, nodeC5, t5]
          simp only [hres]
          split
          · exact ⟨hif9, hif10, hif5⟩
          · exact IH data nested _ _
              (by simp [codesAll_append, codesAll, codeAll, nodeC9, h9, ht, t9])
              (by simp [codesAll_append, codesAll, codeAll, nodeC10, h10, t10])
              (by simp [codesAll_append, codesAll, codeAll, nodeC5, h5, t5])
    | resetE0 rbah rpah off =>
      cases nested with
      | true => simpa [resInv] using ⟨h9, h10, h5⟩
      | false =>
        exact IH data false off (codes ++ [.ResetAddressHigh rbah rpah])
          (by simp [codesAll_append, codesAll, h9, codeAll, nodeC9])
          (by simp [codesAll_append, codesAll, h10, codeAll, nodeC10])
          (by simp [codesAll_append, codesAll, h5, codeAll, nodeC5])
    | resetE2 eb count rbah rpah off =>
      have h9' : codesAll nodeC9 (if eb then codes ++ [.Else count rbah rpah] else codes) = true := by
        cases eb <;> simp [codesAll_append, codesAll, h9, codeAll, nodeC9]
      have h10' : codesAll nodeC10 (if eb then codes ++ [.Else count rbah rpah] else codes) = true := by
        cases eb <;> simp [codesAll_append, codesAll, h10, codeAll, nodeC10]
      have h5' : codesAll nodeC5 (if eb then codes ++ [.Else count rbah rpah] else codes) = true := by
        cases eb <;> simp [codesAll_append, codesAll, h5, codeAll, nodeC5]
      cases nested with
      | true =>
        by_cases hcnt : count ≠ 0
        · simpa [resInv, hcnt] using ⟨h9', h10', h5'⟩
        · simpa [hcnt] using IH data true off _ h9' h10' h5'
      | false =>
        exact IH data false off _
          (by simp [codesAll_append, codesAll, h9', codeAll, nodeC9])
          (by simp [codesAll_append, codesAll, h10', codeAll, nodeC10])
          (by simp [codesAll_append, codesAll, h5', codeAll, nodeC5])

/-- new_script stamps the script with `offset as u32`. -/
theorem new_script_offset (pd : List Nat) (n : Nat) (s : Script)
    (h : new_script pd n = some s) : s.offset = n % 2^32 := by
  unfold new_script at h
  split at h
  · split at h
    · cases h; rfl
    · cases h
  · cases h; rfl

/-- `o as usize as u32` equals `o as u32` (sign extension then truncation). -/
theorem usizeOfInt_mod_u32 (o : Int) : usizeOfInt o % 2^32 = u32ofInt o := by
  unfold usizeOfInt u32ofInt
  have h1 : o.emod (2^64) % (2^32:Int) = o.emod (2^32) :=
    Int.emod_emod_of_dvd o ⟨2^32, by norm_num⟩
  have h2 : (0:Int) ≤ o.emod (2^64) := Int.emod_nonneg o (by norm_num)
  norm_num at h1 h2 ⊢
  omega

/-- One fragment-loop step preserves offset uniqueness and disjointness
from the action scripts. -/
theorem fragmentStep_inv (pd : List Nat) (as : List (List Script)) (frags : List Script)
    (e : Event) (f : List Script)
    (hnd : (frags.map Script.offset).Nodup) (hdj : offsetsDisjoint as frags)
    (h : fragmentStep pd as frags e = some f) :
    (f.map Script.offset).Nodup ∧ offsetsDisjoint as f := by
  unfold fragmentStep at h
  split at h
  case isFalse => cases h; exact ⟨hnd, hdj⟩
  case isTrue =>
  split at h
  all_goals try (cases h; exact ⟨hnd, hdj⟩)
  rename_i o heq
  by_cases hcond :
      ((!as.any fun l => l.any fun s => s.offset == u32ofInt o) &&
        !frags.any fun s => s.offset == u32ofInt o) = true
  case neg =>
    rw [if_neg hcond] at h
    cases h; exact ⟨hnd, hdj⟩
  case pos =>
  rw [if_pos hcond] at h
  cases hns : new_script pd (usizeOfInt o) with
  | none => rw [hns] at h; cases h
  | some s =>
    rw [hns] at h
    cases h
    simp only [Bool.and_eq_true, Bool.not_eq_true'] at hcond
    obtain ⟨hact, hadd⟩ := hcond
    have hso : s.offset = u32ofInt o := by
      rw [new_script_offset pd _ s hns, usizeOfInt_mod_u32]
    have hnotin : u32ofInt o ∉ frags.map Script.offset := by
      intro hmem
      simp only [List.any_eq_false, beq_iff_eq] at hadd
      obtain ⟨x, hx, hxo⟩ := List.mem_map.mp hmem
      exact hadd x hx hxo
    have hnotact : ∀ sl ∈ as, ∀ t ∈ sl, t.offset ≠ u32ofInt o := by
      intro sl hsl t ht
      simp only [List.any_eq_false, Bool.not_eq_true, beq_iff_eq] at hact
      exact hact sl hsl t ht
    constructor
    · rw [List.map_append]
      simp [List.nodup_append, hnd, hso, hnotin]
    · intro s' hs' sl hsl t ht
      rcases List.mem_append.mp hs' with hold | hnew
      · exact hdj s' hold sl hsl t ht
      · rcases List.mem_singleton.mp hnew with rfl
        rw [hso]
        exact hnotact sl hsl t ht

/-- The event loop preserves the fragment invariants. -/
theorem fragmentEvents_inv (pd : List Nat) (as : List (List Script)) :
    ∀ (es : List Event) (frags f : List Script),
      (frags.map Script.offset).Nodup → offsetsDisjoint as frags →
      fragmentEvents pd as frags es = some f →
      (f.map Script.offset).Nodup ∧ offsetsDisjoint as f := by
  intro es
  induction es with
  | nil => intro frags f h1 h2 h; cases h; exact ⟨h1, h2⟩
  | cons e es ih =>
    intro frags f h1 h2 h
    unfold fragmentEvents at h
    cases hstep : fragmentStep pd as frags e with
    | none => rw [hstep] at h; cases h
    | some f1 =>
      rw [hstep] at h
      obtain ⟨n1, d1⟩ := fragmentStep_inv pd as frags e f1 h1 h2 hstep
      exact ih f1 f n1 d1 h

/-- The per-table script loop preserves the fragment invariants. -/
theorem fragmentScripts1_inv (pd : List Nat) (as : List (List Script)) :
    ∀ (ss : List Script) (frags f : List Script),
      (frags.map Script.offset).Nodup → offsetsDisjoint as frags →
      fragmentScripts1 pd as frags ss = some f →
      (f.map Script.offset).Nodup ∧ offsetsDisjoint as f := by
  intro ss
  induction ss with
  | nil => intro frags f h1 h2 h; cases h; exact ⟨h1, h2⟩
  | cons s ss ih =>
    intro frags f h1 h2 h
    unfold fragmentScripts1 at h
    cases hstep : fragmentEvents pd as frags s.events with
    | none => rw [hstep] at h; cases h
    | some f1 =>
      rw [hstep] at h
      obtain ⟨n1, d1⟩ := fragmentEvents_inv pd as s.events frags f1 h1 h2 hstep
      exact ih f1 f n1 d1 h

/-- The table loop preserves the fragment invariants. -/
theorem fragmentLists_inv (pd : List Nat) (as : List (List Script)) :
    ∀ (ls : List (List Script)) (frags f : List Script),
      (frags.map Script.offset).Nodup → offsetsDisjoint as frags →
      fragmentLists pd as frags ls = some f →
      (f.map Script.offset).Nodup ∧ offsetsDisjoint as f := by
  intro ls
  induction ls with
  | nil => intro frags f h1 h2 h; cases h; exact ⟨h1, h2⟩
  | cons l ls ih =>
    intro frags f h1 h2 h
    unfold fragmentLists at h
    cases hstep : fragmentScripts1 pd as frags l with
    | none => rw [hstep] at h; cases h
    | some f1 =>
      rw [hstep] at h
      obtain ⟨n1, d1⟩ := fragmentScripts1_inv pd as l frags f1 h1 h2 hstep
      exact ih f1 f n1 d1 h

/-- Claim C7: for every parent blob and collection of input action-script
lists, the list returned by fragment_scripts contains no two scripts with
the same offset field, and no script whose offset equals the offset of any
script in the input action-script lists. -/
theorem c7_fragment_uniqueness (pd : List Nat) (action_scripts : List (List Script))
    (l : List Script) (h : fragment_scripts pd action_scripts = some l) :
    (l.map Script.offset).Nodup ∧
      ∀ s ∈ l, ∀ sl ∈ action_scripts, ∀ t ∈ sl, t.offset ≠ s.offset := by
  have := fragmentLists_inv pd action_scripts action_scripts [] l List.nodup_nil
    (by intro s hs; cases hs) h
  exact ⟨this.1, this.2⟩

/-- Witness for C7 at a concrete input: one action table whose script at
offset 1 contains a subroutine event pointing at offset 5. -/
theorem c7_fragment_uniqueness_witness :
    (([⟨[], 5⟩] : List Script).map Script.offset).Nodup ∧
      ∀ s ∈ ([⟨[], 5⟩] : List Script),
        ∀ sl ∈ [[(⟨[⟨0, 7, 0, [Argument.Offset 5]⟩], 1⟩ : Script)]],
          ∀ t ∈ sl, t.offset ≠ s.offset :=
  c7_fragment_uniqueness [] [[⟨[⟨0, 7, 0, [Argument.Offset 5]⟩], 1⟩]] [⟨[], 5⟩] rfl

/-- Claim C6 (counterexample): fragment_scripts has no `o > 0` guard, so a
subroutine event whose first argument is Offset(0) appends a fragment with
offset 0 (and empty events); the claim says that can never happen. -/
theorem c6_zero_offset_fragment_appended :
    fragment_scripts [] [[⟨[⟨0, 7, 0, [Argument.Offset 0]⟩], 0x100⟩]] = some [⟨[], 0⟩] ∧
      (⟨[], 0⟩ : Script).offset = 0 :=
  ⟨rfl, rfl⟩

/-- Claim C6 (amended): a new fragment is decoded and appended whenever the
subroutine/goto event's first argument is Offset(o) for any o — including
0 and negative values — provided o's u32 image differs from every action
script's offset and every previously discovered fragment's offset. -/
theorem c6_fragment_appended_for_any_offset (pd : List Nat) (o : Int) (u off : Nat)
    (hoff : off ≠ u32ofInt o) :
    fragment_scripts pd [[⟨[⟨0, 7, u, [Argument.Offset o]⟩], off⟩]] =
      (new_script pd (usizeOfInt o)).map (fun s => [s]) := by
  have hbeq : (off == u32ofInt o) = false := beq_eq_false_iff_ne.mpr hoff
  cases hns : new_script pd (usizeOfInt o) with
  | none =>
    simp [fragment_scripts, fragmentLists, fragmentScripts1, fragmentEvents,
      fragmentStep, hbeq, hns]
  | some s =>
    simp [fragment_scripts, fragmentLists, fragmentScripts1, fragmentEvents,
      fragmentStep, hbeq, hns]

/-- Witness for the amended C6 at offset 0: the zero-offset fragment is
appended. -/
theorem c6_fragment_appended_for_any_offset_witness :
    fragment_scripts [] [[⟨[⟨0, 7, 0, [Argument.Offset 0]⟩], 1⟩]] =
      (new_script [] (usizeOfInt 0)).map (fun s => [s]) :=
  c6_fragment_appended_for_any_offset [] 0 0 1 (by decide)

/-- Claim C1: the decoders panic on truncated input instead of returning a
diagnostic result: a 1-byte WiiRD stream panics in the header read, a
2-byte PSA blob with entry offset 1 panics reading the event's code byte,
and a 1-byte blob panics reading an argument record. -/
theorem c1_truncated_inputs_panic :
    process_block 1 [0x00] false = .panic ∧
    new_script [0, 0] 1 = none ∧
    arguments [0] 0 1 = none := by
  refine ⟨rfl, ?_, rfl⟩
  rw [new_script]
  rw [new_script_events]
  simp [byteAt, readU32]

/-- Claim C2: a top-level row beginning 0xF0 is dispatched to the 0xE0 arm
(the mask 0b11101110 clears bit 4, so the match value 0xF0 is unreachable):
it emits a ResetAddressHigh and decoding continues past it, contrary to
the end-of-program claim. -/
theorem c2_f0_row_decoded_as_reset :
    wiird_codes 3 [0xF0, 0, 0, 0, 0, 0, 0, 0, 0x04, 0x00, 0x01, 0x00, 0xAA, 0xBB, 0xCC, 0xDD] =
      .ok ⟨[.ResetAddressHigh 0 0, .WriteAndFill32 true 0x100 0xAABBCCDD]⟩ :=
  rfl

/-- Claim C3 (counterexample): the argument record `00 00 00 05
01 00 00 2A` does not decode to LongtermAccess(0x2A)/Int. -/
theorem c3_s6_record_counterexample :
    arguments [0, 0, 0, 5, 0x01, 0x00, 0x00, 0x2A] 0 1 ≠
      some [Argument.Variable ⟨.LongtermAccess 0x2A, .Int⟩] := by
  intro h
  rw [show arguments [0, 0, 0, 5, 0x01, 0x00, 0x00, 0x2A] 0 1 =
      some [Argument.Variable ⟨.InternalConstant (.Address 0x2A), .Float⟩] from rfl] at h
  simp at h

/-- Claim C3 (amended): with data 0x0100002A the memory type nibble
(bits 28-31) is 0 and the data type nibble (bits 24-27) is 1, so the
record decodes to InternalConstant(Address 0x2A) with data type Float. -/
theorem c3_s6_record_decodes_internal_constant :
    arguments [0, 0, 0, 5, 0x01, 0x00, 0x00, 0x2A] 0 1 =
      some [Argument.Variable ⟨.InternalConstant (.Address 0x2A), .Float⟩] :=
  rfl

/-- Claim C4 (counterexample): a WriteAndFill32 row followed by an
unterminated if: the first row decodes, but wiird_codes returns an empty
block, so the accumulated code is not preserved. -/
theorem c4_unterminated_if_counterexample :
    decodeOne [0x04, 0, 0x01, 0, 0xAA, 0xBB, 0xCC, 0xDD, 0x20, 0, 0, 0, 0, 0, 0, 0] 0 =
      .emit (.WriteAndFill32 true 0x100 0xAABBCCDD) 8 ∧
    wiird_codes 3 [0x04, 0, 0x01, 0, 0xAA, 0xBB, 0xCC, 0xDD, 0x20, 0, 0, 0, 0, 0, 0, 0] =
      .ok ⟨[]⟩ :=
  ⟨rfl, rfl⟩

/-- Claim C4 (amended): when the nested call of an if-opcode returns
Finished (unterminated conditional), process_block logs and returns
Finished with an empty codes list, discarding the codes accumulated at
that level. -/
theorem c4_unterminated_if_returns_empty (fuel : Nat) (data : List Nat) (nested : Bool)
    (offset : Nat) (codes : List WiiRDCode) (test : IfTest) (off : Nat)
    (hlt : offset < data.length)
    (hdec : decodeOne data offset = .enterIf test off)
    (hfin : ∃ cs, process_block_from fuel (data.drop off) true 0 [] = .ok (.Finished cs)) :
    process_block_from (fuel + 1) data nested offset codes = .ok (.Finished []) := by
  obtain ⟨cs, hcs⟩ := hfin
  rw [process_block_from]
  simp [hlt, hdec, hcs]

/-- Witness for the amended C4 at the counterexample input. -/
theorem c4_unterminated_if_returns_empty_witness :
    process_block_from 2 [0x04, 0, 0x01, 0, 0xAA, 0xBB, 0xCC, 0xDD, 0x20, 0, 0, 0, 0, 0, 0, 0]
      false 8 [.WriteAndFill32 true 0x100 0xAABBCCDD] = .ok (.Finished []) :=
  c4_unterminated_if_returns_empty 1 _ false 8 _ (.IsEqual true 0 0) 16 (by decide) rfl ⟨[], rfl⟩

/-- Claim C5 (counterexample): an Always goto with offset_lines = -3 is
elided, not emitted: the skip wraps the offset out of range, decoding
stops, and no Goto appears in the result. -/
theorem c5_backward_always_goto_counterexample :
    readI16 [0x04, 0, 0x01, 0, 0xAA, 0xBB, 0xCC, 0xDD, 0x66, 0x20, 0xFF, 0xFD, 0, 0, 0, 0] 10 =
      some (-3) ∧
    wiird_codes 3 [0x04, 0, 0x01, 0, 0xAA, 0xBB, 0xCC, 0xDD, 0x66, 0x20, 0xFF, 0xFD, 0, 0, 0, 0] =
      .ok ⟨[.WriteAndFill32 true 0x100 0xAABBCCDD]⟩ ∧
    WiiRDCode.Goto .Always (-3) ∉ [WiiRDCode.WriteAndFill32 true 0x100 0xAABBCCDD] :=
  ⟨rfl, rfl, by simp⟩

/-- Claim C5 (amended): Always gotos are elided regardless of the sign of
offset_lines — the decoder skips `8 * offset_lines as usize` bytes with
wrapping arithmetic instead of emitting the Goto — so no Goto with flag
Always ever appears in a decoded tree; conditional gotos are emitted
verbatim. -/
theorem c5_always_goto_never_emitted (fuel : Nat) (data : List Nat) (b : WiiRDBlock)
    (h : wiird_codes fuel data = .ok b) : codesAll nodeC5 b.codes = true := by
  have hinv := process_block_from_inv fuel data false 0 [] rfl rfl rfl
  unfold wiird_codes process_block at h
  cases hres : process_block_from fuel data false 0 [] with
  | panic => simp only [hres] at h; cases h
  | noFuel => simp only [hres] at h; cases h
  | ok p =>
    simp only [hres, resInv] at h hinv
    cases p with
    | Finished cs => cases h; exact hinv.2.2
    | EndIf count tb bp r1 r2 => cases h; rfl

/-- Witness for the amended C5 at the counterexample input. -/
theorem c5_always_goto_never_emitted_witness :
    wiird_codes 3 [0x04, 0, 0x01, 0, 0xAA, 0xBB, 0xCC, 0xDD, 0x66, 0x20, 0xFF, 0xFD, 0, 0, 0, 0] =
      .ok ⟨[.WriteAndFill32 true 0x100 0xAABBCCDD]⟩ ∧
    codesAll nodeC5 [.WriteAndFill32 true 0x100 0xAABBCCDD] = true :=
  ⟨rfl, c5_always_goto_never_emitted 3
    [0x04, 0, 0x01, 0, 0xAA, 0xBB, 0xCC, 0xDD, 0x66, 0x20, 0xFF, 0xFD, 0, 0, 0, 0]
    ⟨[.WriteAndFill32 true 0x100 0xAABBCCDD]⟩ rfl⟩

/-- Claim C8: an 0x66 Always goto with offset_lines = -1 at offset 0 sends
the (wrapping) offset back to 0, so process_block never terminates: it
runs out of any amount of fuel instead of returning. -/
theorem c8_backward_always_goto_nontermination :
    ∀ n : Nat, process_block n [0x66, 0x20, 0xFF, 0xFF, 0, 0, 0, 0] false = .noFuel := by
  intro n
  induction n with
  | zero => rfl
  | succ n ih =>
    have hstep : process_block (n + 1) [0x66, 0x20, 0xFF, 0xFF, 0, 0, 0, 0] false =
        process_block_from n [0x66, 0x20, 0xFF, 0xFF, 0, 0, 0, 0] false 0 [] := rfl
    rw [hstep]
    exact ih

/-- Claim C9: in every IfTest anywhere in a decoded WiiRD tree (all eight
variants), the address field has its low bit equal to 0. -/
theorem c9_iftest_address_low_bit_clear (fuel : Nat) (data : List Nat) (b : WiiRDBlock)
    (h : wiird_codes fuel data = .ok b) : codesAll nodeC9 b.codes = true := by
  have hinv := process_block_from_inv fuel data false 0 [] rfl rfl rfl
  unfold wiird_codes process_block at h
  cases hres : process_block_from fuel data false 0 [] with
  | panic => simp only [hres] at h; cases h
  | noFuel => simp only [hres] at h; cases h
  | ok p =>
    simp only [hres, resInv] at h hinv
    cases p with
    | Finished cs => cases h; exact hinv.1
    | EndIf count tb bp r1 r2 => cases h; rfl

/-- Witness for C9: a masked-if block whose test address 0x10 has low bit
0. -/
theorem c9_iftest_address_low_bit_clear_witness :
    wiird_codes 3 [0x28, 0x00, 0x00, 0x10, 0x00, 0xFF, 0x00, 0x0A,
        0x04, 0x00, 0x01, 0x00, 0x00, 0x00, 0x00, 0x01, 0xE0, 0, 0, 0, 0, 0, 0, 0] =
      .ok ⟨[.IfStatement (.IsEqualMask true 0x10 0xFF 0x0A) [.WriteAndFill32 true 0x100 1]
          none 0 0, .ResetAddressHigh 0 0]⟩ ∧
    codesAll nodeC9 [.IfStatement (.IsEqualMask true 0x10 0xFF 0x0A)
        [.WriteAndFill32 true 0x100 1] none 0 0, .ResetAddressHigh 0 0] = true :=
  ⟨rfl, c9_iftest_address_low_bit_clear 3
    [0x28, 0x00, 0x00, 0x10, 0x00, 0xFF, 0x00, 0x0A,
      0x04, 0x00, 0x01, 0x00, 0x00, 0x00, 0x00, 0x01, 0xE0, 0, 0, 0, 0, 0, 0, 0]
    ⟨[.IfStatement (.IsEqualMask true 0x10 0xFF 0x0A) [.WriteAndFill32 true 0x100 1]
        none 0 0, .ResetAddressHigh 0 0]⟩ rfl⟩

set_option maxRecDepth 4000 in
/-- Claim C10: every decoded OperationGeckoRegisterDirectValue (0x86) and
OperationGeckoRegister (0x88) node carries either Add or Unknown(v) with v
a nonzero multiple of 16 — never Mul, Or, And, Xor, the shifts, rotate, or
the float operations — and on any byte, masking with 0xF0 without the
right shift by 4 makes GeckoOperation::new return Add exactly when the
high nibble is 0 and Unknown(16k) otherwise. -/
theorem c10_gecko_operation_only_add_or_unknown :
    (∀ (fuel : Nat) (data : List Nat) (b : WiiRDBlock), wiird_codes fuel data = .ok b →
      codesAll nodeC10 b.codes = true) ∧
    (∀ byte : Nat, byte < 256 →
      GeckoOperation.new (byte &&& 0xF0) =
        if byte &&& 0xF0 = 0 then .Add else .Unknown (byte &&& 0xF0)) := by
  constructor
  · intro fuel data b h
    have hinv := process_block_from_inv fuel data false 0 [] rfl rfl rfl
    unfold wiird_codes process_block at h
    cases hres : process_block_from fuel data false 0 [] with
    | panic => simp only [hres] at h; cases h
    | noFuel => simp only [hres] at h; cases h
    | ok p =>
      simp only [hres, resInv] at h hinv
      cases p with
      | Finished cs => cases h; exact hinv.2.1
      | EndIf count tb bp r1 r2 => cases h; rfl
  · decide

/-- Witness for C10: an 0x86 row with operation byte 0x30 yields
Unknown 48, and the mask fact at byte 0x35. -/
theorem c10_gecko_operation_witness :
    wiird_codes 2 [0x86, 0x30, 0x00, 0x02, 0, 0, 0, 5] =
      .ok ⟨[.OperationGeckoRegisterDirectValue (.Unknown 48) false false 2 5]⟩ ∧
    codesAll nodeC10 [.OperationGeckoRegisterDirectValue (.Unknown 48) false false 2 5] = true ∧
    GeckoOperation.new (0x35 &&& 0xF0) =
      (if (0x35 &&& 0xF0 : Nat) = 0 then .Add else .Unknown (0x35 &&& 0xF0)) :=
  ⟨rfl,
    c10_gecko_operation_only_add_or_unknown.1 2 [0x86, 0x30, 0x00, 0x02, 0, 0, 0, 5]
      ⟨[.OperationGeckoRegisterDirectValue (.Unknown 48) false false 2 5]⟩ rfl,
    c10_gecko_operation_only_add_or_unknown.2 0x35 (by decide)⟩
